import Mathlib

/-!
# msi-acrpull: the manager bootstrap (`main.go`)

A shallow embedding of `main.go`: the process entry point `main` and the
health checker `checkAPIServer`.

Everything `main` calls lives outside the file (the Go standard library,
controller-runtime, and the repository's own `controllers` and `authorizer`
packages).  Those collaborators are parameters of the model, gathered in
`Host`: every call takes the current world state `σ` and returns its result
together with the next world state, so a collaborator may answer differently
each time it is called.  `main` records the collaborator calls it makes, in
order, together with the error each one returned.

Scope: the model covers the runs in which the library calls that can end the
process on their own (`flag.Parse` on a malformed command line,
`ctrl.GetConfigOrDie`) return to `main`.
-/

namespace MsiAcrPull

/-! ## Go values -/

/-- A non-nil Go `error` value, identified by its message. -/
abbrev Error := String

/-- A Go value of interface type `error`: `none` is `nil`. -/
abbrev GoError := Option Error

/-- The part of a `context.Context` the program's behaviour can depend on:
`Deadline` is `none` when `ctx.Deadline()` reports `ok = false`. -/
structure Context where
  Deadline : Option Nat
  deriving DecidableEq, Repr

/-- `context.Background()`: never cancelled, no values, no deadline. -/
def Background : Context := { Deadline := none }

/-- An `*http.Request`, as far as a health checker could look at it. -/
structure Request where
  Method : String
  Path : String
  deriving DecidableEq, Repr

/-- The object-list argument of `client.List`: which kind is listed. -/
inductive ObjectList where
  | SecretList
  | ServiceAccountList
  | AcrPullBindingList
  deriving DecidableEq, Repr

/-- A `*runtime.Scheme`: the API groups added to it, in order. -/
structure Scheme where
  groups : List String
  deriving DecidableEq, Repr

/-- A `logr.Logger`: the names given by `WithName`, outermost first. -/
structure Logger where
  names : List String
  deriving DecidableEq, Repr

/-- A `*rest.Config`. -/
structure RestConfig where
  Host : String
  deriving DecidableEq, Repr

/-- The value `authorizer.NewAuthorizer()` returns. -/
structure Authorizer where
  name : String
  deriving DecidableEq, Repr

/-- The value `ctrl.SetupSignalHandler()` returns. -/
structure SignalHandler where
  id : Nat
  deriving DecidableEq, Repr

/-- The fields of `ctrl.Options` that `main` sets. -/
structure Options where
  Scheme : Scheme
  MetricsBindAddress : String
  Port : Nat
  HealthProbeBindAddress : String
  LeaderElection : Bool
  LeaderElectionID : String
  deriving DecidableEq, Repr

/-! ## Collaborators -/

/-- A `client.Client`, as far as `main.go` uses it.  `List` fills the list it
is handed (which `checkAPIServer` throws away) and returns an error. -/
structure Client (σ : Type) where
  List : Context → ObjectList → σ → GoError × σ

/-- A `healthz.Checker`: `func(*http.Request) error`. -/
abbrev Checker (σ : Type) := Request → σ → GoError × σ

/-- A `manager.Manager`, as far as `main.go` uses it. -/
structure Manager (σ : Type) where
  AddHealthzCheck : String → Checker σ → σ → GoError × σ
  AddReadyzCheck : String → Checker σ → σ → GoError × σ
  GetClient : Client σ
  GetScheme : Scheme
  Start : SignalHandler → σ → GoError × σ

/-- The struct literal `&controllers.AcrPullBindingReconciler{...}` of `main`:
the seven fields it sets. -/
structure AcrPullBindingReconciler (σ : Type) where
  Client : Client σ
  Log : Logger
  Scheme : Scheme
  Auth : Authorizer
  DefaultACRServer : String
  DefaultManagedIdentityResourceID : String
  DefaultManagedIdentityClientID : String

/-- The command line after `flag.Parse`: for each flag that was given, the
value it was set to. -/
structure CommandLine where
  strings : List (String × String)
  bools : List (String × Bool)
  deriving DecidableEq, Repr

/-- The process environment: `NAME=value` pairs. -/
abbrev Environ := List (String × String)

/-- What `main` runs against: the command line, the environment and the
functions of other packages it calls. -/
structure Host (σ : Type) where
  commandLine : CommandLine
  environ : Environ
  GetConfigOrDie : RestConfig
  NewManager : RestConfig → Options → σ → Except Error (Manager σ) × σ
  NewAuthorizer : Authorizer
  SetupWithManager : AcrPullBindingReconciler σ → Manager σ → σ → GoError × σ
  SetupSignalHandler : SignalHandler

/-- A variable bound by `flag.StringVar(&v, name, value, usage)`, read after
`flag.Parse`: the value given on the command line, else the default. -/
def StringVar (cl : CommandLine) (name value : String) : String :=
  (cl.strings.lookup name).getD value

/-- A variable bound by `flag.BoolVar(&v, name, value, usage)`, read after
`flag.Parse`. -/
def BoolVar (cl : CommandLine) (name : String) (value : Bool) : Bool :=
  (cl.bools.lookup name).getD value

/-- Go `os.Getenv`: the variable's value, empty when it is not present. -/
def Getenv (env : Environ) (key : String) : String :=
  (env.lookup key).getD ""

/-! ## `main.go` -/

def defaultACRServerEnvKey : String := "ACR_SERVER"
def defaultManagedIdentityResourceIDEnvKey : String := "MANAGED_IDENTITY_RESOURCE_ID"
def defaultManagedIdentityClientIDEnvKey : String := "MANAGED_IDENTITY_CLIENT_ID"

/-- The package variable `scheme` after `init`: a new scheme to which
`clientgoscheme` and `msiacrpullv1beta1` were added. -/
def scheme : Scheme := { groups := ["clientgoscheme", "msiacrpullv1beta1"] }

/-- The checker `checkAPIServer(mgr)`: list secrets to ensure the API server
is reachable. -/
def checkAPIServer {σ : Type} (mgr : Manager σ) : Checker σ :=
  fun _ w =>
    match mgr.GetClient.List Background ObjectList.SecretList w with
    | (some err, w1) => (some err, w1)
    | (none, w1) => (none, w1)

/-- A call `main` makes to a collaborator, with its arguments. -/
inductive Call (σ : Type) where
  | NewManager (config : RestConfig) (options : Options)
  | AddHealthzCheck (mgr : Manager σ) (name : String) (check : Checker σ)
  | AddReadyzCheck (mgr : Manager σ) (name : String) (check : Checker σ)
  | SetupWithManager (r : AcrPullBindingReconciler σ) (mgr : Manager σ)
  | Start (mgr : Manager σ) (stop : SignalHandler)

/-- A call and the error it returned. -/
structure CallRecord (σ : Type) where
  call : Call σ
  err : GoError

/-- The five steps of `main`. -/
inductive Step where
  | managerCreation
  | healthzRegistration
  | readyzRegistration
  | setupWithManager
  | managerStart
  deriving DecidableEq, Repr

/-- Which step a call is. -/
def Call.step {σ : Type} : Call σ → Step
  | .NewManager _ _ => .managerCreation
  | .AddHealthzCheck _ _ _ => .healthzRegistration
  | .AddReadyzCheck _ _ _ => .readyzRegistration
  | .SetupWithManager _ _ => .setupWithManager
  | .Start _ _ => .managerStart

/-- A line written through `setupLog`. -/
inductive LogEntry where
  | error (err : Error) (msg : String)
  | info (msg : String)
  deriving DecidableEq, Repr

/-- What a run of `main` leaves behind: the exit status of the process, the
collaborator calls in order, the log, the reconciler if one was constructed,
and the final world state. -/
structure Outcome (σ : Type) where
  exitCode : Nat
  calls : List (CallRecord σ)
  logs : List LogEntry
  reconciler : Option (AcrPullBindingReconciler σ)
  world : σ

/-- The options `main` passes to `ctrl.NewManager`. -/
def managerOptions (cl : CommandLine) : Options :=
  { Scheme := scheme
    MetricsBindAddress := StringVar cl "metrics-addr" ":8080"
    Port := 9443
    HealthProbeBindAddress := StringVar cl "health-probe-bind-address" ":8081"
    LeaderElection := BoolVar cl "enable-leader-election" false
    LeaderElectionID := "aks.azure.com" }

/-- The reconciler `main` constructs for the manager `mgr`. -/
def apbReconciler {σ : Type} (h : Host σ) (mgr : Manager σ) : AcrPullBindingReconciler σ :=
  let defaultACRServer := Getenv h.environ defaultACRServerEnvKey
  let defaultManagedIdentityResourceID := Getenv h.environ defaultManagedIdentityResourceIDEnvKey
  let defaultManagedIdentityClientID := Getenv h.environ defaultManagedIdentityClientIDEnvKey
  { Client := mgr.GetClient
    Log := { names := ["controllers", "AcrPullBinding"] }
    Scheme := mgr.GetScheme
    Auth := h.NewAuthorizer
    DefaultACRServer := defaultACRServer
    DefaultManagedIdentityResourceID := defaultManagedIdentityResourceID
    DefaultManagedIdentityClientID := defaultManagedIdentityClientID }

/-- The function `main`, run from world state `w0`. -/
def main {σ : Type} (h : Host σ) (w0 : σ) : Outcome σ :=
  let opts := managerOptions h.commandLine
  let c1 := Call.NewManager h.GetConfigOrDie opts
  match h.NewManager h.GetConfigOrDie opts w0 with
  | (.error err, w1) =>
    { exitCode := 1
      calls := [⟨c1, some err⟩]
      logs := [.error err "unable to start manager"]
      reconciler := none
      world := w1 }
  | (.ok mgr, w1) =>
    let c2 := Call.AddHealthzCheck mgr "healthz" (checkAPIServer mgr)
    match mgr.AddHealthzCheck "healthz" (checkAPIServer mgr) w1 with
    | (some err, w2) =>
      { exitCode := 1
        calls := [⟨c1, none⟩, ⟨c2, some err⟩]
        logs := [.error err "unable to set up health check"]
        reconciler := none
        world := w2 }
    | (none, w2) =>
      let c3 := Call.AddReadyzCheck mgr "readyz" (checkAPIServer mgr)
      match mgr.AddReadyzCheck "readyz" (checkAPIServer mgr) w2 with
      | (some err, w3) =>
        { exitCode := 1
          calls := [⟨c1, none⟩, ⟨c2, none⟩, ⟨c3, some err⟩]
          logs := [.error err "unable to set up ready check"]
          reconciler := none
          world := w3 }
      | (none, w3) =>
        let r := apbReconciler h mgr
        let c4 := Call.SetupWithManager r mgr
        match h.SetupWithManager r mgr w3 with
        | (some err, w4) =>
          { exitCode := 1
            calls := [⟨c1, none⟩, ⟨c2, none⟩, ⟨c3, none⟩, ⟨c4, some err⟩]
            logs := [.error err "unable to create controller"]
            reconciler := some r
            world := w4 }
        | (none, w4) =>
          let c5 := Call.Start mgr h.SetupSignalHandler
          match mgr.Start h.SetupSignalHandler w4 with
          | (some err, w5) =>
            { exitCode := 1
              calls := [⟨c1, none⟩, ⟨c2, none⟩, ⟨c3, none⟩, ⟨c4, none⟩, ⟨c5, some err⟩]
              logs := [.info "starting manager", .error err "problem running manager"]
              reconciler := some r
              world := w5 }
          | (none, w5) =>
            { exitCode := 0
              calls := [⟨c1, none⟩, ⟨c2, none⟩, ⟨c3, none⟩, ⟨c4, none⟩, ⟨c5, none⟩]
              logs := [.info "starting manager"]
              reconciler := some r
              world := w5 }

/-- The options of the `ctrl.NewManager` call of a run, if the run made one. -/
def passedOptions {σ : Type} (o : Outcome σ) : Option Options :=
  o.calls.findSome? fun c =>
    match c.call with
    | .NewManager _ opts => some opts
    | _ => none

/-- The error a call returns and the world it leaves when it is made against
the host `h` from the world `w`: the collaborator function the call names,
applied to the arguments of the call. -/
def Call.apply {σ : Type} (h : Host σ) : Call σ → σ → GoError × σ
  | .NewManager config options, w =>
    match h.NewManager config options w with
    | (.error err, w1) => (some err, w1)
    | (.ok _, w1) => (none, w1)
  | .AddHealthzCheck mgr name check, w => mgr.AddHealthzCheck name check w
  | .AddReadyzCheck mgr name check, w => mgr.AddReadyzCheck name check w
  | .SetupWithManager r mgr, w => h.SetupWithManager r mgr w
  | .Start mgr stop, w => mgr.Start stop w

/-- Making the recorded calls again, one after the other, from the world `w`:
the world they lead to, or `none` as soon as a call returns another error
than the one recorded for it. -/
def replay {σ : Type} (h : Host σ) : List (CallRecord σ) → σ → Option σ
  | [], w => some w
  | c :: cs, w =>
    if (c.call.apply h w).1 = c.err then replay h cs (c.call.apply h w).2 else none

/-- The manager a call is made on; `ctrl.NewManager` is made on none. -/
def Call.manager {σ : Type} : Call σ → Option (Manager σ)
  | .NewManager _ _ => none
  | .AddHealthzCheck mgr _ _ => some mgr
  | .AddReadyzCheck mgr _ _ => some mgr
  | .SetupWithManager _ mgr => some mgr
  | .Start mgr _ => some mgr

/-! ## Concrete hosts

A small cluster to run `main` on: the world state says whether the API server
answers. -/

/-- A client whose `List` fails exactly when the API server is down. -/
def demoClient : Client Bool :=
  { List := fun _ _ up => (if up then none else some "connection refused", up) }

/-- A manager that accepts every registration and runs until stopped. -/
def demoManager : Manager Bool :=
  { AddHealthzCheck := fun _ _ w => (none, w)
    AddReadyzCheck := fun _ _ w => (none, w)
    GetClient := demoClient
    GetScheme := scheme
    Start := fun _ w => (none, w) }

/-- No flags on the command line, all three defaults in the environment. -/
def demoHost : Host Bool :=
  { commandLine := { strings := [], bools := [] }
    environ := [("ACR_SERVER", "example.azurecr.io"),
                ("MANAGED_IDENTITY_RESOURCE_ID", "/subscriptions/s/resourcegroups/g/id"),
                ("MANAGED_IDENTITY_CLIENT_ID", "1b461305-28be-5271-beda-bd9fd2e24251")]
    GetConfigOrDie := { Host := "https://10.0.0.1:443" }
    NewManager := fun _ _ w => (.ok demoManager, w)
    NewAuthorizer := { name := "authorizer" }
    SetupWithManager := fun _ _ w => (none, w)
    SetupSignalHandler := { id := 0 } }

/-- No flags and an empty environment; the collaborators of `demoHost`. -/
def bareHost : Host Bool :=
  { demoHost with environ := [] }

/-- No flags; an environment that holds the three defaults and, besides,
variables that name a renewal margin and backoff bounds; the collaborators of
`demoHost`. -/
def tunedHost : Host Bool :=
  { demoHost with
    environ := [("ACR_SERVER", "example.azurecr.io"),
                ("MANAGED_IDENTITY_RESOURCE_ID", "/subscriptions/s/resourcegroups/g/id"),
                ("MANAGED_IDENTITY_CLIENT_ID", "1b461305-28be-5271-beda-bd9fd2e24251"),
                ("RENEWAL_MARGIN", "300s"),
                ("BACKOFF_MIN", "1s"),
                ("BACKOFF_MAX", "60s")] }

/-- A manager over a world that counts the calls made: every call adds one,
the registrations and the start return nil, and `List` fails on an odd world. -/
def countingManager : Manager Nat :=
  { AddHealthzCheck := fun _ _ n => (none, n + 1)
    AddReadyzCheck := fun _ _ n => (none, n + 1)
    GetClient := { List := fun _ _ n => (if n % 2 = 0 then none else some "odd", n + 1) }
    GetScheme := scheme
    Start := fun _ n => (none, n + 1) }

/-- A host over the counting world: no flags, an empty environment, and a
`ctrl.NewManager` that refuses options other than the ones of `main`. -/
def countingHost : Host Nat :=
  { commandLine := { strings := [], bools := [] }
    environ := []
    GetConfigOrDie := { Host := "https://10.0.0.1:443" }
    NewManager := fun _ opts n =>
      if opts = { Scheme := scheme, MetricsBindAddress := ":8080", Port := 9443,
                  HealthProbeBindAddress := ":8081", LeaderElection := false,
                  LeaderElectionID := "aks.azure.com" }
      then (.ok countingManager, n + 1) else (.error "unexpected options", n + 1)
    NewAuthorizer := { name := "authorizer" }
    SetupWithManager := fun _ _ n => (none, n + 1)
    SetupSignalHandler := { id := 0 } }

/-- A client that reports whether the context it is handed has a deadline. -/
def probeClient : Client Bool :=
  { List := fun ctx _ w =>
      (if ctx.Deadline.isSome then none else some "context has no deadline", w) }

/-- A manager `demoManager` with `probeClient` for its client. -/
def probeManager : Manager Bool :=
  { demoManager with GetClient := probeClient }

/-! ## The reconciler literal, field by field -/

/-- The value of a field of the reconciler literal: a collaborator handle or a
plain configuration value. -/
inductive FieldValue (σ : Type) where
  | client (c : Client σ)
  | logger (l : Logger)
  | scheme (s : Scheme)
  | authorizer (a : Authorizer)
  | string (s : String)

/-- The keyed elements of the literal `&controllers.AcrPullBindingReconciler{...}`,
in source order. -/
def AcrPullBindingReconciler.fields {σ : Type} (r : AcrPullBindingReconciler σ) :
    List (String × FieldValue σ) :=
  [("Client", .client r.Client),
   ("Log", .logger r.Log),
   ("Scheme", .scheme r.Scheme),
   ("Auth", .authorizer r.Auth),
   ("DefaultACRServer", .string r.DefaultACRServer),
   ("DefaultManagedIdentityResourceID", .string r.DefaultManagedIdentityResourceID),
   ("DefaultManagedIdentityClientID", .string r.DefaultManagedIdentityClientID)]

/-- The named configuration parameters of the reconciler: the fields that hold
a plain value rather than a collaborator. -/
def AcrPullBindingReconciler.configParameters {σ : Type} (r : AcrPullBindingReconciler σ) :
    List (String × String) :=
  r.fields.filterMap fun kv =>
    match kv.2 with
    | .string s => some (kv.1, s)
    | _ => none

/-! ## The Binding and its defaults (from the specification) -/

/-- Modelled from the spec: the Binding record of the data model (the
repository's `api/v1beta1` package, which declares it, is not among the
sources).  An attribute the Binding omits is the empty string. -/
structure Binding where
  identityResourceID : String
  identityClientID : String
  registryServer : String
  secretName : String
  serviceAccounts : List String
  namespaceScope : String
  deriving DecidableEq, Repr

/-- Modelled from the spec: the two ways to read "defaults for
identity-reference and registry server may be supplied via process-wide
configuration when the Binding omits them" (the repository's `controllers`
package, which applies the defaults, is not among the sources): a form takes
its default when the Binding omits that form, or only when the Binding omits
the identity reference altogether. -/
inductive DefaultsReading where
  | eachForm
  | wholeReference
  deriving DecidableEq, Repr

/-- Modelled from the spec: whether the Binding `b` omits the identity form
whose own value is `own`, under a reading of "omits". -/
def omitsIdentity (reading : DefaultsReading) (b : Binding) (own : String) : Bool :=
  match reading with
  | .eachForm => own == ""
  | .wholeReference => b.identityResourceID == "" && b.identityClientID == ""

/-- Modelled from the spec: applying the process-wide defaults (the
repository's `controllers` package, which does it, is not among the sources):
"defaults for identity-reference and registry server may be supplied via
process-wide configuration when the Binding omits them", under either reading
of "omits" for the identity reference. -/
def applyDefaults {σ : Type} (reading : DefaultsReading) (r : AcrPullBindingReconciler σ)
    (b : Binding) : Binding :=
  { b with
    identityResourceID :=
      if omitsIdentity reading b b.identityResourceID then r.DefaultManagedIdentityResourceID
      else b.identityResourceID
    identityClientID :=
      if omitsIdentity reading b b.identityClientID then r.DefaultManagedIdentityClientID
      else b.identityClientID
    registryServer :=
      if b.registryServer = "" then r.DefaultACRServer else b.registryServer }

/-- Modelled from the spec: "exactly one identity-reference form is populated
(resource ID xor client ID)". -/
def ExactlyOneIdentity (b : Binding) : Prop :=
  (b.identityResourceID ≠ "" ∧ b.identityClientID = "")
  ∨ (b.identityResourceID = "" ∧ b.identityClientID ≠ "")

instance (b : Binding) : Decidable (ExactlyOneIdentity b) := by
  unfold ExactlyOneIdentity
  exact inferInstance

/-- A Binding that names a registry and a secret and no identity. -/
def anonymousBinding : Binding :=
  { identityResourceID := ""
    identityClientID := ""
    registryServer := "registry.example.com"
    secretName := "acr-pull"
    serviceAccounts := ["default"]
    namespaceScope := "" }

/-- A Binding that names a managed identity by its resource ID only. -/
def resourceBinding : Binding :=
  { anonymousBinding with identityResourceID := "/subscriptions/s/resourcegroups/g/id" }

/-! ## The reconciler's schedule (from the specification) -/

/-- Modelled from the spec: the Issued Token of the data model (the
repository's `controllers` and `authorizer` packages are not among the
sources).  Times are seconds on one clock. -/
structure IssuedToken where
  payload : String
  expiry : Int
  issuance : Int
  deriving DecidableEq, Repr

/-- Modelled from the spec: the states per Binding of the reconciler's state
machine. -/
inductive BindingState where
  | Unknown
  | Issuing
  | Valid
  | Expiring
  | Error
  deriving DecidableEq, Repr

/-- Modelled from the spec: the renewal margin and the backoff bounds, "named
parameters" of the reconciler. -/
structure ReconcilerConfig where
  renewalMargin : Int
  backoffBase : Int
  backoffCap : Int
  errorInterval : Int
  deriving DecidableEq, Repr

/-- Modelled from the spec: what the Token Authority Client answers. -/
inductive AuthorityAnswer where
  | issued (t : IssuedToken)
  | TransientNetworkError
  | IdentityDenied
  | MalformedRequest
  deriving DecidableEq, Repr

/-- What one reconciliation decides: the state of the Binding, the token in
force, and when the Binding is reconciled next. -/
structure Decision where
  state : BindingState
  token : Option IssuedToken
  requeueAt : Int
  deriving DecidableEq, Repr

/-- Modelled from the spec: the state `Issuing`.  "on success → Valid ...; on
retryable failure → stay in Issuing, requeue after exponential backoff with
jitter (bounded maximum interval); on non-retryable failure → Error, ...
requeue after a long fixed interval"; and of `Valid`: "schedules the next
transition to Issuing at expiry - renewal_margin". -/
def issuing (cfg : ReconcilerConfig) (now : Int) (attempt : Nat) (jitter : Int)
    (held : Option IssuedToken) : AuthorityAnswer → Decision
  | .issued t => ⟨.Valid, some t, t.expiry - cfg.renewalMargin⟩
  | .TransientNetworkError | .IdentityDenied =>
    ⟨.Issuing, held, now + min cfg.backoffCap (cfg.backoffBase * 2 ^ attempt + jitter)⟩
  | .MalformedRequest => ⟨.Error, held, now + cfg.errorInterval⟩

/-- Modelled from the spec: one reconciliation of a Binding in state `st`
holding the token `held`.  A token is "usable only while now < expiry -
renewal_margin": a `Valid` Binding with a usable token stays `Valid` and waits
for its schedule; inside the margin it is `Expiring`, which "forces immediate
re-issuance"; every other state issues. -/
def reconcile (cfg : ReconcilerConfig) (now : Int) (attempt : Nat) (jitter : Int)
    (st : BindingState) (held : Option IssuedToken) (answer : AuthorityAnswer) : Decision :=
  match st, held with
  | .Valid, some t =>
    if now < t.expiry - cfg.renewalMargin then ⟨.Valid, some t, t.expiry - cfg.renewalMargin⟩
    else issuing cfg now attempt jitter held answer
  | _, _ => issuing cfg now attempt jitter held answer

/-- Renewal five minutes before expiry, backoff from one second to one minute,
ten minutes after a failure that cannot be retried. -/
def scenarioConfig : ReconcilerConfig :=
  { renewalMargin := 300, backoffBase := 1, backoffCap := 60, errorInterval := 600 }

/-! ## Theorems -/

section Bootstrap

variable {σ : Type}

/-- The reconciler of a run, when there is one, is the literal of `main` for
some manager. -/
theorem main_reconciler (h : Host σ) (w : σ) (r : AcrPullBindingReconciler σ)
    (hr : (main h w).reconciler = some r) : ∃ mgr, r = apbReconciler h mgr := by
  simp only [main] at hr
  split at hr
  · simp at hr
  · split at hr
    · simp at hr
    · split at hr
      · simp at hr
      · have key : ∀ mgr : Manager σ, some (apbReconciler h mgr) = some r →
            ∃ mgr, r = apbReconciler h mgr := by
          intro mgr e
          cases e
          exact ⟨mgr, rfl⟩
        split at hr
        · exact key _ hr
        · split at hr <;> exact key _ hr

/-- The options of the `ctrl.NewManager` call of a run. -/
theorem passedOptions_main (h : Host σ) (w : σ) :
    passedOptions (main h w) = some (managerOptions h.commandLine) := by
  simp only [main, passedOptions]
  repeat' split
  all_goals simp [List.findSome?]

/-- The first call of a run is `ctrl.NewManager` on the options of `main`, and
the error recorded for it is the one `ctrl.NewManager` returns for them. -/
theorem main_first_call (h : Host σ) (w : σ) :
    (main h w).calls.head?
      = some ⟨Call.NewManager h.GetConfigOrDie (managerOptions h.commandLine),
              ((Call.NewManager h.GetConfigOrDie (managerOptions h.commandLine)).apply h w).1⟩ := by
  rcases h1 : h.NewManager h.GetConfigOrDie (managerOptions h.commandLine) w with ⟨e1 | m, w1⟩
  · simp [main, h1, Call.apply]
  · simp only [main, h1, Call.apply]
    repeat' split
    all_goals simp

/-- When `ctrl.NewManager` returns an error the run ends there. -/
theorem main_newManager_error (h : Host σ) (w : σ) (err : Error) (w1 : σ)
    (h1 : h.NewManager h.GetConfigOrDie (managerOptions h.commandLine) w = (.error err, w1)) :
    (main h w).calls
        = [⟨Call.NewManager h.GetConfigOrDie (managerOptions h.commandLine), some err⟩]
    ∧ (main h w).world = w1
    ∧ (main h w).exitCode = 1
    ∧ (main h w).logs = [.error err "unable to start manager"] := by
  simp [main, h1]

/-- When `ctrl.NewManager` returns a manager, the next call registers
"healthz" on it, in the world `ctrl.NewManager` left. -/
theorem main_newManager_ok (h : Host σ) (w : σ) (mgr : Manager σ) (w1 : σ)
    (h1 : h.NewManager h.GetConfigOrDie (managerOptions h.commandLine) w = (.ok mgr, w1)) :
    ∃ rest, (main h w).calls
      = ⟨Call.NewManager h.GetConfigOrDie (managerOptions h.commandLine), none⟩
        :: ⟨Call.AddHealthzCheck mgr "healthz" (checkAPIServer mgr),
            (mgr.AddHealthzCheck "healthz" (checkAPIServer mgr) w1).1⟩
        :: rest := by
  simp only [main, h1]
  repeat' split
  all_goals simp_all

/-- C1: the reconciler `main` constructs takes `DefaultACRServer` from
`ACR_SERVER`, `DefaultManagedIdentityResourceID` from
`MANAGED_IDENTITY_RESOURCE_ID` and `DefaultManagedIdentityClientID` from
`MANAGED_IDENTITY_CLIENT_ID`, each the empty string when the variable is not
in the environment. -/
theorem reconciler_defaults_from_env (h : Host σ) (w : σ) (r : AcrPullBindingReconciler σ)
    (hr : (main h w).reconciler = some r) :
    r.DefaultACRServer = (h.environ.lookup "ACR_SERVER").getD ""
    ∧ r.DefaultManagedIdentityResourceID
        = (h.environ.lookup "MANAGED_IDENTITY_RESOURCE_ID").getD ""
    ∧ r.DefaultManagedIdentityClientID
        = (h.environ.lookup "MANAGED_IDENTITY_CLIENT_ID").getD "" := by
  obtain ⟨mgr, rfl⟩ := main_reconciler h w r hr
  exact ⟨rfl, rfl, rfl⟩

/-- Witness for C1: on `demoHost` the run constructs a reconciler, with the
three defaults of the environment. -/
theorem reconciler_defaults_from_env_witness :
    (main demoHost true).reconciler = some (apbReconciler demoHost demoManager)
    ∧ (apbReconciler demoHost demoManager).DefaultACRServer = "example.azurecr.io"
    ∧ (apbReconciler demoHost demoManager).DefaultManagedIdentityResourceID
        = "/subscriptions/s/resourcegroups/g/id"
    ∧ (apbReconciler demoHost demoManager).DefaultManagedIdentityClientID
        = "1b461305-28be-5271-beda-bd9fd2e24251" :=
  ⟨rfl, reconciler_defaults_from_env demoHost true (apbReconciler demoHost demoManager) rfl⟩

/-- C2: the checker `checkAPIServer mgr` returns nil exactly when listing
Secrets through the manager's client returns nil, returns the very error the
list call returned when it fails, leaves the world as the list call left it,
and gives the same result for any two requests. -/
theorem checkAPIServer_returns_list_error (mgr : Manager σ) (req : Request) (w : σ) :
    ((checkAPIServer mgr req w).1 = none
      ↔ (mgr.GetClient.List Background ObjectList.SecretList w).1 = none)
    ∧ (∀ err, (mgr.GetClient.List Background ObjectList.SecretList w).1 = some err →
        (checkAPIServer mgr req w).1 = some err)
    ∧ (checkAPIServer mgr req w).2 = (mgr.GetClient.List Background ObjectList.SecretList w).2
    ∧ (∀ req2, checkAPIServer mgr req2 w = checkAPIServer mgr req w) := by
  unfold checkAPIServer
  rcases hl : mgr.GetClient.List Background ObjectList.SecretList w with ⟨_ | e, w1⟩ <;> simp

/-- C8: on every run that reaches the manager creation, whatever the command
line and the environment, `main` applies `ctrl.NewManager` to options with
`MetricsBindAddress` the value of `-metrics-addr` (else ":8080"),
`HealthProbeBindAddress` the value of `-health-probe-bind-address` (else
":8081"), `LeaderElection` the value of `-enable-leader-election` (else
false), `Port` 9443 and `LeaderElectionID` "aks.azure.com": the first call is
that one and carries the error `ctrl.NewManager` returns for these options;
when it returns an error the run ends there, in the world it left, with
status 1; when it returns a manager, the next call registers "healthz" on
that manager in the world it left. -/
theorem manager_options_from_flags (h : Host σ) (w : σ) :
    ∃ opts, passedOptions (main h w) = some opts
      ∧ (main h w).calls.head?
          = some ⟨Call.NewManager h.GetConfigOrDie opts,
                  ((Call.NewManager h.GetConfigOrDie opts).apply h w).1⟩
      ∧ opts.MetricsBindAddress = (h.commandLine.strings.lookup "metrics-addr").getD ":8080"
      ∧ opts.HealthProbeBindAddress
          = (h.commandLine.strings.lookup "health-probe-bind-address").getD ":8081"
      ∧ opts.LeaderElection = (h.commandLine.bools.lookup "enable-leader-election").getD false
      ∧ opts.Port = 9443
      ∧ opts.LeaderElectionID = "aks.azure.com"
      ∧ opts.Scheme = scheme
      ∧ (∀ err w1, h.NewManager h.GetConfigOrDie opts w = (.error err, w1) →
          (main h w).calls = [⟨Call.NewManager h.GetConfigOrDie opts, some err⟩]
          ∧ (main h w).world = w1
          ∧ (main h w).exitCode = 1
          ∧ (main h w).logs = [.error err "unable to start manager"])
      ∧ (∀ mgr w1, h.NewManager h.GetConfigOrDie opts w = (.ok mgr, w1) →
          ∃ rest, (main h w).calls
            = ⟨Call.NewManager h.GetConfigOrDie opts, none⟩
              :: ⟨Call.AddHealthzCheck mgr "healthz" (checkAPIServer mgr),
                  (mgr.AddHealthzCheck "healthz" (checkAPIServer mgr) w1).1⟩
              :: rest) := by
  exact ⟨managerOptions h.commandLine, passedOptions_main h w, main_first_call h w,
    rfl, rfl, rfl, rfl, rfl, rfl, main_newManager_error h w, main_newManager_ok h w⟩

/-- C10: on every run that reaches the manager creation, the calls of `main`
are manager creation, healthz registration, readyz registration,
`SetupWithManager`, manager start, in that order, each made in the world the
one before left, until one returns an error: the calls recorded are the
calls made (made again from the first world they return the recorded errors
and lead to the final world), every call after the first is on the manager
that `ctrl.NewManager` returned, every call but the last returned nil, a call
that returned nil is followed by the next step (so the run has all five
calls or ends on a call that failed), the manager is started only after the
four earlier steps returned nil, and the exit status is 1 exactly when some
step returned an error and 0 otherwise. -/
theorem main_fail_fast_in_order (h : Host σ) (w : σ) :
    (main h w).calls.map (fun c => c.call.step)
        <+: [Step.managerCreation, Step.healthzRegistration, Step.readyzRegistration,
              Step.setupWithManager, Step.managerStart]
    ∧ (main h w).calls ≠ []
    ∧ (∀ c ∈ (main h w).calls.dropLast, c.err = none)
    ∧ (Step.managerStart ∈ (main h w).calls.map (fun c => c.call.step) →
        (main h w).calls.length = 5 ∧ ∀ c ∈ (main h w).calls.take 4, c.err = none)
    ∧ ((main h w).exitCode = 1 ↔ ∃ c ∈ (main h w).calls, c.err ≠ none)
    ∧ ((main h w).exitCode = 0 ↔ ∀ c ∈ (main h w).calls, c.err = none)
    ∧ replay h (main h w).calls w = some (main h w).world
    ∧ ((main h w).calls.length = 5
        ∨ ∃ c, (main h w).calls.getLast? = some c ∧ c.err ≠ none)
    ∧ ((∀ c ∈ (main h w).calls, c.err = none) →
        (main h w).calls.map (fun c => c.call.step)
          = [Step.managerCreation, Step.healthzRegistration, Step.readyzRegistration,
              Step.setupWithManager, Step.managerStart])
    ∧ (∀ c ∈ (main h w).calls, ∀ m, c.call.manager = some m →
        ∃ w1, h.NewManager h.GetConfigOrDie (managerOptions h.commandLine) w = (.ok m, w1)) := by
  rcases h1 : h.NewManager h.GetConfigOrDie (managerOptions h.commandLine) w with ⟨e1 | m, w1⟩
  · simp [main, h1, replay, Call.apply, Call.step, Call.manager, List.prefix_iff_eq_take]
  rcases h2 : m.AddHealthzCheck "healthz" (checkAPIServer m) w1 with ⟨_ | e2, w2⟩
  swap
  · simp [main, h1, h2, replay, Call.apply, Call.step, Call.manager, List.prefix_iff_eq_take]
  rcases h3 : m.AddReadyzCheck "readyz" (checkAPIServer m) w2 with ⟨_ | e3, w3⟩
  swap
  · simp [main, h1, h2, h3, replay, Call.apply, Call.step, Call.manager,
      List.prefix_iff_eq_take]
  rcases h4 : h.SetupWithManager (apbReconciler h m) m w3 with ⟨_ | e4, w4⟩
  swap
  · simp [main, h1, h2, h3, h4, replay, Call.apply, Call.step, Call.manager,
      List.prefix_iff_eq_take]
  rcases h5 : m.Start h.SetupSignalHandler w4 with ⟨_ | e5, w5⟩
  all_goals
    simp [main, h1, h2, h3, h4, h5, replay, Call.apply, Call.step, Call.manager,
      List.prefix_iff_eq_take]

/-- C9: when the calls of `main` include the manager start, then
`ctrl.NewManager` returned that manager, `AddHealthzCheck` of the check
"healthz" and then `AddReadyzCheck` of the check "readyz" were applied on it,
each to the checker `checkAPIServer` of that manager and each returning nil,
then `SetupWithManager` returned nil, and the start ran in the world these
calls left; the calls before the start record the two registrations; and on
every world state and for any two requests the two checks give the same
result.  Conversely, whenever these four calls return nil the calls of `main`
include the manager start. -/
theorem probes_registered_before_start (h : Host σ) (w : σ) (mgr : Manager σ)
    (stop : SignalHandler) (e : GoError) :
    ((⟨Call.Start mgr stop, e⟩ : CallRecord σ) ∈ (main h w).calls →
      (∃ w1 w2 w3 w4,
        h.NewManager h.GetConfigOrDie (managerOptions h.commandLine) w = (.ok mgr, w1)
        ∧ mgr.AddHealthzCheck "healthz" (checkAPIServer mgr) w1 = (none, w2)
        ∧ mgr.AddReadyzCheck "readyz" (checkAPIServer mgr) w2 = (none, w3)
        ∧ h.SetupWithManager (apbReconciler h mgr) mgr w3 = (none, w4)
        ∧ stop = h.SetupSignalHandler
        ∧ mgr.Start stop w4 = (e, (main h w).world))
      ∧ ∃ pre hc rc, (main h w).calls = pre ++ [⟨Call.Start mgr stop, e⟩]
        ∧ (⟨Call.AddHealthzCheck mgr "healthz" hc, none⟩ : CallRecord σ) ∈ pre
        ∧ (⟨Call.AddReadyzCheck mgr "readyz" rc, none⟩ : CallRecord σ) ∈ pre
        ∧ hc = checkAPIServer mgr
        ∧ rc = checkAPIServer mgr
        ∧ ∀ (req1 req2 : Request) (w1 : σ), hc req1 w1 = rc req2 w1)
    ∧ (∀ w1 w2 w3 w4,
        h.NewManager h.GetConfigOrDie (managerOptions h.commandLine) w = (.ok mgr, w1) →
        mgr.AddHealthzCheck "healthz" (checkAPIServer mgr) w1 = (none, w2) →
        mgr.AddReadyzCheck "readyz" (checkAPIServer mgr) w2 = (none, w3) →
        h.SetupWithManager (apbReconciler h mgr) mgr w3 = (none, w4) →
        (⟨Call.Start mgr h.SetupSignalHandler, (mgr.Start h.SetupSignalHandler w4).1⟩ :
          CallRecord σ) ∈ (main h w).calls) := by
  constructor
  · intro hs
    rcases h1 : h.NewManager h.GetConfigOrDie (managerOptions h.commandLine) w with ⟨_ | m, w1⟩
    · simp [main, h1] at hs
    rcases h2 : m.AddHealthzCheck "healthz" (checkAPIServer m) w1 with ⟨_ | e2, w2⟩
    swap
    · simp [main, h1, h2] at hs
    rcases h3 : m.AddReadyzCheck "readyz" (checkAPIServer m) w2 with ⟨_ | e3, w3⟩
    swap
    · simp [main, h1, h2, h3] at hs
    rcases h4 : h.SetupWithManager (apbReconciler h m) m w3 with ⟨_ | e4, w4⟩
    swap
    · simp [main, h1, h2, h3, h4] at hs
    rcases h5 : m.Start h.SetupSignalHandler w4 with ⟨_ | e5, w5⟩
    all_goals
      simp [main, h1, h2, h3, h4, h5] at hs
      obtain ⟨⟨rfl, rfl⟩, rfl⟩ := hs
      refine ⟨⟨w1, w2, w3, w4, rfl, h2, h3, h4, rfl, ?_⟩,
        (main h w).calls.take 4, checkAPIServer mgr, checkAPIServer mgr,
        ?_, ?_, ?_, rfl, rfl, ?_⟩
      · simp [main, h1, h2, h3, h4, h5]
      · simp [main, h1, h2, h3, h4, h5]
      · simp [main, h1, h2, h3, h4, h5]
      · simp [main, h1, h2, h3, h4, h5]
      · intro req1 req2 w1
        rfl
  · intro w1 w2 w3 w4 h1 h2 h3 h4
    rcases h5 : mgr.Start h.SetupSignalHandler w4 with ⟨_ | e5, w5⟩ <;>
      simp [main, h1, h2, h3, h4, h5]

/-- Witness for C9: the run on the counting host starts the manager, after
four calls that each moved the world on by one. -/
theorem probes_registered_before_start_witness :
    (⟨Call.Start countingManager ⟨0⟩, none⟩ : CallRecord Nat) ∈ (main countingHost 0).calls
    ∧ (main countingHost 0).world = 5
    ∧ (∃ w1 w2 w3 w4,
        countingHost.NewManager countingHost.GetConfigOrDie
            (managerOptions countingHost.commandLine) 0 = (.ok countingManager, w1)
        ∧ countingManager.AddHealthzCheck "healthz" (checkAPIServer countingManager) w1
            = (none, w2)
        ∧ countingManager.AddReadyzCheck "readyz" (checkAPIServer countingManager) w2
            = (none, w3)
        ∧ countingHost.SetupWithManager (apbReconciler countingHost countingManager)
            countingManager w3 = (none, w4)
        ∧ (⟨0⟩ : SignalHandler) = countingHost.SetupSignalHandler
        ∧ countingManager.Start ⟨0⟩ w4 = (none, (main countingHost 0).world)) :=
  ⟨.tail _ (.tail _ (.tail _ (.tail _ (.head _)))), rfl,
   ((probes_registered_before_start countingHost 0 countingManager ⟨0⟩ none).1
      (.tail _ (.tail _ (.tail _ (.tail _ (.head _)))))).1⟩

/-- C6, as stated, fails: the checker hands the client's `List` the background
context, which has no deadline; `probeClient` sees none. -/
theorem checkAPIServer_context_without_deadline :
    (checkAPIServer probeManager ⟨"GET", "/healthz"⟩ true).1 = some "context has no deadline"
    ∧ ∀ d : Nat, (probeClient.List ⟨some d⟩ ObjectList.SecretList true).1 = none := by
  refine ⟨rfl, ?_⟩
  intro d
  rfl

/-- C6, amended: every invocation of the checker is one call of the client's
`List` with the background context and the Secret list, and the background
context has no deadline: nothing in the checker bounds the call in time. -/
theorem checkAPIServer_lists_with_background (mgr : Manager σ) (req : Request) (w : σ) :
    checkAPIServer mgr req w = mgr.GetClient.List Background ObjectList.SecretList w
    ∧ Background.Deadline = none := by
  refine ⟨?_, rfl⟩
  unfold checkAPIServer
  rcases hl : mgr.GetClient.List Background ObjectList.SecretList w with ⟨_ | e, w1⟩ <;> rfl

/-- C7, as stated, fails: on a command line without `-enable-leader-election`
the manager is created with leader election off. -/
theorem leader_election_off_by_default :
    (passedOptions (main demoHost true)).map (fun o => o.LeaderElection) = some false := by
  rw [passedOptions_main]
  rfl

/-- C7, amended: the manager is created with leader election on exactly when
the command line sets `-enable-leader-election` to true: these are the
options `ctrl.NewManager` is applied to, and the manager it returns for them
is the one `main` goes on with. -/
theorem leader_election_follows_flag (h : Host σ) (w : σ) :
    ∃ opts, passedOptions (main h w) = some opts
      ∧ (opts.LeaderElection = true
          ↔ h.commandLine.bools.lookup "enable-leader-election" = some true)
      ∧ (h.commandLine.bools.lookup "enable-leader-election" = none →
          opts.LeaderElection = false)
      ∧ (main h w).calls.head?
          = some ⟨Call.NewManager h.GetConfigOrDie opts,
                  ((Call.NewManager h.GetConfigOrDie opts).apply h w).1⟩
      ∧ (∀ mgr w1, h.NewManager h.GetConfigOrDie opts w = (.ok mgr, w1) →
          ∃ rest, (main h w).calls
            = ⟨Call.NewManager h.GetConfigOrDie opts, none⟩
              :: ⟨Call.AddHealthzCheck mgr "healthz" (checkAPIServer mgr),
                  (mgr.AddHealthzCheck "healthz" (checkAPIServer mgr) w1).1⟩
              :: rest) := by
  refine ⟨managerOptions h.commandLine, passedOptions_main h w, ?_, ?_, main_first_call h w,
    main_newManager_ok h w⟩
  · simp only [managerOptions, BoolVar]
    cases h.commandLine.bools.lookup "enable-leader-election" <;> simp
  · intro hn
    simp [managerOptions, BoolVar, hn]

/-- C5, as stated, fails: on a host whose environment names a renewal margin
and backoff bounds besides the three defaults, the reconciler `main` constructs has seven
fields, and the named configuration parameters among them are three, not
five: the three defaults. -/
theorem reconciler_has_three_config_parameters :
    ∃ r, (main tunedHost true).reconciler = some r
      ∧ r.fields.map Prod.fst
          = ["Client", "Log", "Scheme", "Auth", "DefaultACRServer",
             "DefaultManagedIdentityResourceID", "DefaultManagedIdentityClientID"]
      ∧ r.configParameters
          = [("DefaultACRServer", "example.azurecr.io"),
             ("DefaultManagedIdentityResourceID", "/subscriptions/s/resourcegroups/g/id"),
             ("DefaultManagedIdentityClientID", "1b461305-28be-5271-beda-bd9fd2e24251")]
      ∧ ¬ 5 ≤ r.configParameters.length :=
  ⟨apbReconciler tunedHost demoManager, rfl, rfl, rfl, by decide⟩

/-- C5, amended: the named configuration parameters `main` supplies to the
reconciler are exactly the default registry server, the default identity
resource ID and the default identity client ID, read from the environment;
the other fields of the literal are the collaborators `Client`, `Log`,
`Scheme` and `Auth`; and two runs whose environments agree on the three
variables supply the same configuration parameters, whatever else the
command line and the environment hold. -/
theorem reconciler_config_is_three_defaults (h : Host σ) (w : σ)
    (r : AcrPullBindingReconciler σ) (hr : (main h w).reconciler = some r) :
    r.configParameters
        = [("DefaultACRServer", (h.environ.lookup "ACR_SERVER").getD ""),
           ("DefaultManagedIdentityResourceID",
              (h.environ.lookup "MANAGED_IDENTITY_RESOURCE_ID").getD ""),
           ("DefaultManagedIdentityClientID",
              (h.environ.lookup "MANAGED_IDENTITY_CLIENT_ID").getD "")]
    ∧ r.fields.map Prod.fst
        = ["Client", "Log", "Scheme", "Auth", "DefaultACRServer",
           "DefaultManagedIdentityResourceID", "DefaultManagedIdentityClientID"]
    ∧ ∀ (τ : Type) (h2 : Host τ) (w2 : τ) (r2 : AcrPullBindingReconciler τ),
        (main h2 w2).reconciler = some r2 →
        h2.environ.lookup "ACR_SERVER" = h.environ.lookup "ACR_SERVER" →
        h2.environ.lookup "MANAGED_IDENTITY_RESOURCE_ID"
          = h.environ.lookup "MANAGED_IDENTITY_RESOURCE_ID" →
        h2.environ.lookup "MANAGED_IDENTITY_CLIENT_ID"
          = h.environ.lookup "MANAGED_IDENTITY_CLIENT_ID" →
        r2.configParameters = r.configParameters := by
  obtain ⟨mgr, rfl⟩ := main_reconciler h w r hr
  refine ⟨rfl, rfl, ?_⟩
  intro τ h2 w2 r2 hr2 e1 e2 e3
  obtain ⟨mgr2, rfl⟩ := main_reconciler h2 w2 r2 hr2
  simp [AcrPullBindingReconciler.configParameters, AcrPullBindingReconciler.fields,
    apbReconciler, Getenv, defaultACRServerEnvKey, defaultManagedIdentityResourceIDEnvKey,
    defaultManagedIdentityClientIDEnvKey, e1, e2, e3]

/-- Witness for C5: the run on `demoHost` constructs a reconciler. -/
theorem reconciler_config_is_three_defaults_witness :
    (main demoHost true).reconciler = some (apbReconciler demoHost demoManager)
    ∧ (apbReconciler demoHost demoManager).configParameters
        = [("DefaultACRServer", "example.azurecr.io"),
           ("DefaultManagedIdentityResourceID", "/subscriptions/s/resourcegroups/g/id"),
           ("DefaultManagedIdentityClientID", "1b461305-28be-5271-beda-bd9fd2e24251")] :=
  ⟨rfl,
   (reconciler_config_is_three_defaults demoHost true (apbReconciler demoHost demoManager)
      rfl).1⟩

end Bootstrap

section FromTheSpecification

variable {σ : Type}

/-- C3, as stated, fails under either reading of the defaults: with no
default in the environment a Binding that names no identity has neither form
populated after the defaults are applied, and with both defaults in the
environment it has both. -/
theorem defaults_can_leave_neither_or_both :
    (∃ r, (main bareHost true).reconciler = some r
      ∧ (applyDefaults .eachForm r anonymousBinding).identityResourceID = ""
      ∧ (applyDefaults .eachForm r anonymousBinding).identityClientID = ""
      ∧ (applyDefaults .wholeReference r anonymousBinding).identityResourceID = ""
      ∧ (applyDefaults .wholeReference r anonymousBinding).identityClientID = ""
      ∧ ¬ ExactlyOneIdentity (applyDefaults .eachForm r anonymousBinding)
      ∧ ¬ ExactlyOneIdentity (applyDefaults .wholeReference r anonymousBinding))
    ∧ (∃ r, (main demoHost true).reconciler = some r
      ∧ (applyDefaults .eachForm r anonymousBinding).identityResourceID ≠ ""
      ∧ (applyDefaults .eachForm r anonymousBinding).identityClientID ≠ ""
      ∧ (applyDefaults .wholeReference r anonymousBinding).identityResourceID ≠ ""
      ∧ (applyDefaults .wholeReference r anonymousBinding).identityClientID ≠ ""
      ∧ ¬ ExactlyOneIdentity (applyDefaults .eachForm r anonymousBinding)
      ∧ ¬ ExactlyOneIdentity (applyDefaults .wholeReference r anonymousBinding)) :=
  ⟨⟨apbReconciler bareHost demoManager, rfl, rfl, rfl, rfl, rfl, by decide, by decide⟩,
   ⟨apbReconciler demoHost demoManager, rfl, by decide, by decide, by decide, by decide,
    by decide, by decide⟩⟩

/-- C3, amended: after the defaults `main` supplies are applied, under either
reading of the defaults, a Binding that names no identity has exactly one
form populated exactly when one of `MANAGED_IDENTITY_RESOURCE_ID` and
`MANAGED_IDENTITY_CLIENT_ID` is non-empty and the other is empty; and a
Binding that names one form only has exactly one form populated when the
variable of the other form is empty. -/
theorem exactly_one_identity_iff (reading : DefaultsReading) (h : Host σ) (w : σ)
    (r : AcrPullBindingReconciler σ) (b : Binding) (hr : (main h w).reconciler = some r) :
    (b.identityResourceID = "" → b.identityClientID = "" →
      (ExactlyOneIdentity (applyDefaults reading r b)
        ↔ ((h.environ.lookup "MANAGED_IDENTITY_RESOURCE_ID").getD "" ≠ ""
            ∧ (h.environ.lookup "MANAGED_IDENTITY_CLIENT_ID").getD "" = "")
          ∨ ((h.environ.lookup "MANAGED_IDENTITY_RESOURCE_ID").getD "" = ""
            ∧ (h.environ.lookup "MANAGED_IDENTITY_CLIENT_ID").getD "" ≠ "")))
    ∧ (b.identityResourceID ≠ "" → b.identityClientID = "" →
        (h.environ.lookup "MANAGED_IDENTITY_CLIENT_ID").getD "" = "" →
        ExactlyOneIdentity (applyDefaults reading r b))
    ∧ (b.identityResourceID = "" → b.identityClientID ≠ "" →
        (h.environ.lookup "MANAGED_IDENTITY_RESOURCE_ID").getD "" = "" →
        ExactlyOneIdentity (applyDefaults reading r b)) := by
  obtain ⟨mgr, rfl⟩ := main_reconciler h w r hr
  cases reading <;>
    simp only [ExactlyOneIdentity, applyDefaults, omitsIdentity, apbReconciler, Getenv,
      defaultManagedIdentityResourceIDEnvKey, defaultManagedIdentityClientIDEnvKey] <;>
    by_cases hb1 : b.identityResourceID = "" <;> by_cases hb2 : b.identityClientID = "" <;>
    simp [hb1, hb2]

/-- Witness for C3: with no default in the environment, a Binding that gives
a resource ID and no client ID has exactly one form populated. -/
theorem exactly_one_identity_iff_witness :
    (main bareHost true).reconciler = some (apbReconciler bareHost demoManager)
    ∧ ExactlyOneIdentity
        (applyDefaults .eachForm (apbReconciler bareHost demoManager) resourceBinding)
    ∧ ExactlyOneIdentity
        (applyDefaults .wholeReference (apbReconciler bareHost demoManager) resourceBinding) :=
  ⟨rfl,
   (exactly_one_identity_iff .eachForm bareHost true (apbReconciler bareHost demoManager)
      resourceBinding rfl).2.1 (by decide) rfl rfl,
   (exactly_one_identity_iff .wholeReference bareHost true (apbReconciler bareHost demoManager)
      resourceBinding rfl).2.1 (by decide) rfl rfl⟩

/-- C4: a reconciliation that leaves the Binding `Valid` holds a token and
requeues the Binding at exactly that token's expiry less the renewal margin;
a successful issuance from any state other than `Valid` does so; and with a
margin of 300 s a token expiring at now + 3600 s requeues at now + 3300 s. -/
theorem valid_requeues_at_expiry_less_margin (cfg : ReconcilerConfig) (now : Int)
    (attempt : Nat) (jitter : Int) (st : BindingState) (held : Option IssuedToken)
    (answer : AuthorityAnswer) :
    ((reconcile cfg now attempt jitter st held answer).state = BindingState.Valid →
      ∃ t, (reconcile cfg now attempt jitter st held answer).token = some t
        ∧ (reconcile cfg now attempt jitter st held answer).requeueAt
            = t.expiry - cfg.renewalMargin)
    ∧ (∀ t, st ≠ BindingState.Valid →
        reconcile cfg now attempt jitter st held (AuthorityAnswer.issued t)
          = ⟨BindingState.Valid, some t, t.expiry - cfg.renewalMargin⟩)
    ∧ (∀ payload issuance, cfg.renewalMargin = 300 → st ≠ BindingState.Valid →
        reconcile cfg now attempt jitter st held
            (AuthorityAnswer.issued ⟨payload, now + 3600, issuance⟩)
          = ⟨BindingState.Valid, some ⟨payload, now + 3600, issuance⟩, now + 3300⟩) := by
  refine ⟨?_, ?_, ?_⟩
  · unfold reconcile
    split
    · split
      · intro _
        exact ⟨_, rfl, rfl⟩
      · cases answer <;> simp [issuing]
    · cases answer <;> simp [issuing]
  · intro t hst
    cases st <;> simp_all [reconcile, issuing]
  · intro payload issuance hm hst
    cases st <;> simp_all [reconcile, issuing] <;> omega

/-- Scenario B at now = 1000: the authority returns a token expiring at 4600,
the margin is 300, the Binding is `Valid` and requeued at 4300. -/
theorem valid_requeues_at_expiry_less_margin_witness :
    (reconcile scenarioConfig 1000 0 0 BindingState.Issuing none
        (AuthorityAnswer.issued ⟨"token", 4600, 1000⟩)).state = BindingState.Valid
    ∧ ∃ t, (reconcile scenarioConfig 1000 0 0 BindingState.Issuing none
          (AuthorityAnswer.issued ⟨"token", 4600, 1000⟩)).token = some t
        ∧ (reconcile scenarioConfig 1000 0 0 BindingState.Issuing none
          (AuthorityAnswer.issued ⟨"token", 4600, 1000⟩)).requeueAt
            = t.expiry - scenarioConfig.renewalMargin :=
  ⟨rfl,
   (valid_requeues_at_expiry_less_margin scenarioConfig 1000 0 0 BindingState.Issuing none
      (AuthorityAnswer.issued ⟨"token", 4600, 1000⟩)).1 rfl⟩

end FromTheSpecification

end MsiAcrPull
